import Mathlib

/-!
# InfoCal front end: session, request pipeline and data orchestration

A shallow embedding of the client-side core of the InfoCal front end:

* `services/api.js`: `ApiService.request`,
* `services/auth.jsx`: `checkAuth`, `handleAuthCallback`, `logout`,
* `App.jsx`: `fetchUserData`, `handleAddLocation`, `handleRemoveLocation`,
  `handleUpdatePreferences`,
* `components/LocationPanel.jsx`: `handleSubmit`,
* `components/WarningPanel.jsx`: `handleToggleWarning`, the checkboxes and the
  notice shown when all warnings are disabled,
* `components/CalendarPanel.jsx`: `warningsByDate` and the dates of the grid.

Asynchronous functions are modelled as state transformers.  Whatever the
environment decides (the outcome of `fetch`, the settled result of an `api.*`
promise) is an explicit argument.  The request pipeline works on untyped JSON
bodies; the handlers of `App` read the payload of a resolved call at the type
the HTTP contract gives it.  A handler reads the React state of the render that
created it, taken here to be the state at the time of the call.  Console output
is not modelled.
-/

namespace Infocal

/-! ## JavaScript values -/

/-- A JSON value as produced by `response.json()`.  Numbers are restricted to
integers. -/
inductive Json where
  | null
  | bool (b : Bool)
  | num (n : Int)
  | str (s : String)
  | arr (items : List Json)
  | obj (fields : List (String × Json))
  deriving Repr

/-- An exception value: `name` and `message` of the thrown error object. -/
structure JsError where
  name : String
  message : String
  deriving DecidableEq, Repr

mutual
/-- The string conversion `String(v)` that `new Error(v)` applies to its
argument (decimal notation for numbers). -/
def Json.toStr : Json → String
  | .null => "null"
  | .bool b => if b then "true" else "false"
  | .num n => toString n
  | .str s => s
  | .arr items => Json.joinItems items
  | .obj _ => "[object Object]"
/-- The elements of an array joined by commas, as `Array.prototype.join` does:
a `null` element contributes the empty string. -/
def Json.joinItems : List Json → String
  | [] => ""
  | [x] => (match x with | .null => "" | y => Json.toStr y)
  | x :: y :: rest =>
    (match x with | .null => "" | z => Json.toStr z) ++ "," ++ Json.joinItems (y :: rest)
end

/-- The error object `new Error(v)`. -/
def newError (v : Json) : JsError :=
  { name := "Error", message := v.toStr }

/-- The exception of a property read on `null`; the message text is the one of
the V8 engine. -/
def nullReadError (key : String) : JsError :=
  { name := "TypeError",
    message := "Cannot read properties of null (reading \x27" ++ key ++ "\x27)" }

/-- JavaScript truthiness of a string-or-null value (`null` is `none`). -/
def truthyStr : Option String → Bool
  | some s => s != ""
  | none => false

/-- JavaScript truthiness of a JSON value. -/
def Json.truthy : Json → Bool
  | .null => false
  | .bool b => b
  | .num n => n != 0
  | .str s => s != ""
  | .arr _ => true
  | .obj _ => true

/-- Truthiness of a possibly `undefined` value (`undefined` is `none`). -/
def truthy : Option Json → Bool
  | some j => j.truthy
  | none => false

/-- Property read `v.key` for a key that no built-in prototype defines
(`message`, `error`): the field of an object, `undefined` on any other
non-null value, a `TypeError` on `null`. -/
def getProp (v : Json) (key : String) : Except JsError (Option Json) :=
  match v with
  | .null => .error (nullReadError key)
  | .obj fields => .ok (fields.lookup key)
  | _ => .ok none

/-- The test `s.includes(p)` on strings. -/
def includes (s p : String) : Bool :=
  s.data.tails.any (fun t => p.data.isPrefixOf t)

/-! ## Browser state -/

/-- The entries of `localStorage`. -/
abbrev Storage := List (String × String)

/-- The call `localStorage.getItem(key)`; `none` is `null`. -/
def getItem (s : Storage) (key : String) : Option String :=
  s.lookup key

/-- The store after `localStorage.removeItem(key)`. -/
def Storage.remove (s : Storage) (key : String) : Storage :=
  s.filter (fun e => e.1 != key)

/-- The store after `localStorage.setItem(key, value)`. -/
def Storage.set (s : Storage) (key value : String) : Storage :=
  (key, value) :: s.remove key

/-- An observable action on the browser. -/
inductive Effect where
  | fetch (endpoint : String) (method : Option String)
      (headers : List (String × String)) (body : Option String)
  | setItem (key value : String)
  | removeItem (key : String)
  | reload
  deriving DecidableEq, Repr

/-- The browser: the persisted store and the actions performed so far, oldest
first. -/
structure Browser where
  storage : Storage
  trace : List Effect
  deriving DecidableEq, Repr

/-- Record an action. -/
def Browser.emit (b : Browser) (e : Effect) : Browser :=
  { b with trace := b.trace ++ [e] }

/-- Perform `localStorage.setItem(key, value)`. -/
def Browser.setItem (b : Browser) (key value : String) : Browser :=
  { storage := b.storage.set key value, trace := b.trace ++ [.setItem key value] }

/-- Perform `localStorage.removeItem(key)`. -/
def Browser.removeItem (b : Browser) (key : String) : Browser :=
  { storage := b.storage.remove key, trace := b.trace ++ [.removeItem key] }

/-- The network calls among the recorded actions. -/
def Browser.fetches (b : Browser) : List Effect :=
  b.trace.filter (fun e => match e with | .fetch _ _ _ _ => true | _ => false)

/-! ## `services/api.js` -/

/-- The second argument of `ApiService.request`; `body` is the serialised
request body. -/
structure RequestOptions where
  method : Option String := none
  body : Option String := none
  headers : List (String × String) := []
  deriving Repr

/-- A response delivered by `fetch`: `contentType` is
`headers.get('content-type')`, `text` the body as `response.text()` gives it, `json` how
`response.json()` settles (the parsed body, or the rejection when the body does
not parse). -/
structure Response where
  status : Nat
  contentType : Option String
  text : String
  json : Except JsError Json
  deriving Repr

/-- The flag `response.ok`: the status is in the range 200 to 299. -/
def Response.ok (r : Response) : Bool :=
  decide (200 ≤ r.status) && decide (r.status ≤ 299)

/-- How the promise returned by `fetch` settles. -/
inductive FetchResult where
  | rejected (e : JsError)
  | resolved (response : Response)
  deriving Repr

/-- The headers built by `request`; as in an object literal a later entry
overrides an earlier one with the same name. -/
def requestHeaders (token : Option String) (options : RequestOptions) :
    List (String × String) :=
  [("Content-Type", "application/json")]
    ++ (match token with
        | some t => if t != "" then [("Authorization", "Bearer " ++ t)] else []
        | none => [])
    ++ options.headers

/-- The expression `error.message || error.error || 'Request failed'`. -/
def errorMessage (error : Json) : Except JsError Json :=
  match getProp error "message" with
  | .error e => .error e
  | .ok m =>
    if truthy m then .ok (m.getD .null)
    else
      match getProp error "error" with
      | .error e => .error e
      | .ok m2 => if truthy m2 then .ok (m2.getD .null) else .ok (.str "Request failed")

/-- The method `ApiService.request(endpoint, options)`, given how `fetch`
settles.  The base URL is a build-time constant and is left out of the recorded
call. -/
def request (endpoint : String) (options : RequestOptions) (res : FetchResult)
    (b : Browser) : Except JsError Json × Browser :=
  let token := getItem b.storage "token"
  let headers := requestHeaders token options
  let b1 := b.emit (.fetch endpoint options.method headers options.body)
  match res with
  | .rejected e => (.error e, b1)
  | .resolved response =>
    if !response.ok then
      if response.status = 401 then
        let b2 := b1.removeItem "token"
        let b3 := b2.removeItem "user_email"
        let b4 := b3.emit .reload
        (.error (newError (.str "Session expired")), b4)
      else
        let error := match response.json with
          | .ok j => j
          | .error _ => .obj []
        match errorMessage error with
        | .error e => (.error e, b1)
        | .ok m => (.error (newError m), b1)
    else
      match response.contentType with
      | some contentType =>
        if contentType != "" && includes contentType "application/json" then
          (response.json, b1)
        else (.ok (.str response.text), b1)
      | none => (.ok (.str response.text), b1)

/-! ## `services/auth.jsx` -/

/-- The identity object `{ email }`. -/
structure User where
  email : String
  deriving DecidableEq, Repr

/-- The state held by `AuthProvider`. -/
structure AuthState where
  isAuthenticated : Bool
  user : Option User
  loading : Bool
  error : Option String
  deriving DecidableEq, Repr

/-- The state of `AuthProvider` at mount, before `checkAuth` has run. -/
def AuthState.initial : AuthState :=
  { isAuthenticated := false, user := none, loading := true, error := none }

/-- The function `checkAuth`, run once at startup.  In the branch taken when
`token && email` holds, `email` is a string and `user` becomes `{ email }`. -/
def checkAuth (a : AuthState) (b : Browser) : AuthState × Browser :=
  let token := getItem b.storage "token"
  let email := getItem b.storage "user_email"
  if truthyStr token && truthyStr email then
    ({ a with isAuthenticated := true, user := email.map User.mk, loading := false }, b)
  else
    ({ a with isAuthenticated := false, user := none, loading := false }, b)

/-- The function `handleAuthCallback(token, email)`; its callers pass the
results of `URLSearchParams.get`, a string or `null`. -/
def handleAuthCallback (token email : Option String) (a : AuthState) (b : Browser) :
    AuthState × Browser :=
  match token, email with
  | some t, some e =>
    if truthyStr (some t) && truthyStr (some e) then
      let b1 := b.setItem "token" t
      let b2 := b1.setItem "user_email" e
      ({ a with isAuthenticated := true, user := some { email := e } }, b2)
    else (a, b)
  | _, _ => (a, b)

/-- The function `logout`. -/
def logout (a : AuthState) (b : Browser) : AuthState × Browser :=
  let b1 := b.removeItem "token"
  let b2 := b1.removeItem "user_email"
  ({ a with isAuthenticated := false, user := none }, b2)

/-! ## `App.jsx` -/

/-- A location as the server returns it. -/
structure Location where
  name : String
  lat : Option Rat := none
  lon : Option Rat := none
  address : Option String := none
  deriving DecidableEq, Repr

/-- A warning record of the history; the two times are instants in
milliseconds since the epoch. -/
structure WarningRecord where
  id : String
  type : String
  severity : String
  description : String
  start_time : Int
  end_time : Int
  area : String
  deriving DecidableEq, Repr

/-- The preference object: its own properties in order, warning type to flag. -/
abbrev Preferences := List (String × Bool)

/-- A call of one of the `api.*` methods used by `App`. -/
inductive ApiCall where
  | getLocations
  | getPreferences
  | getWarningHistory (limit : Nat)
  | addLocation (location : String)
  | removeLocation (location : Location)
  | updatePreferences (preferences : Preferences)
  deriving DecidableEq, Repr

/-- How the promise of an `api.*` call settles: the parsed payload or the
thrown error. -/
abbrev ApiResult (α : Type) := Except JsError α

/-- What an `api.*` promise resolves to, read at the record type `ρ` that the
HTTP contract gives the payload: the JSON value `null`, on which every property
read throws, or any other value, with the properties of `ρ` that it holds (none
of them on a value that is not an object, such as a text body). -/
inductive Payload (ρ : Type) where
  | null
  | value (r : ρ)
  deriving DecidableEq, Repr

/-- The property read `payload.key`; `field` gives the property on a value that
is not `null`. -/
def Payload.read {ρ α : Type} (payload : Payload ρ) (key : String) (field : ρ → Option α) :
    Except JsError (Option α) :=
  match payload with
  | .null => .error (nullReadError key)
  | .value r => .ok (field r)

/-- The payload of `GET /locations`; `none` is a `locations` field that is
absent or holds a falsy value such as `null`. -/
structure LocationsRes where
  locations : Option (List Location)
  deriving DecidableEq, Repr

/-- The payload of `GET /preferences`. -/
structure PreferencesRes where
  preferences : Option Preferences
  deriving DecidableEq, Repr

/-- The payload of `GET /warnings/history`. -/
structure HistoryRes where
  history : Option (List WarningRecord)
  deriving DecidableEq, Repr

/-- The payload of `POST /locations`. -/
structure AddLocationRes where
  location : Location
  deriving DecidableEq, Repr

/-- The state held by `App`.  The field `issued` is not React state: it records
the `api.*` calls made so far, oldest first. -/
structure AppState where
  locations : List Location
  warnings : List WarningRecord
  preferences : Preferences
  error : Option String
  loading : Bool
  issued : List ApiCall
  deriving DecidableEq, Repr

/-- The state of `App` at mount. -/
def AppState.initial : AppState :=
  { locations := [], warnings := [], preferences := [], error := none, loading := true,
    issued := [] }

/-- The statements of `fetchUserData` that follow the `await`, run on the three
resolved values: the arguments of `console.log` read `locationsRes.locations`,
`preferencesRes.preferences` and `warningsRes.history` before any setter runs,
and an exception thrown by one of these reads is caught by the `catch`; the
three setters then apply `field || []` (or `field || {}`). -/
def applyFetched (locationsRes : Payload LocationsRes) (preferencesRes : Payload PreferencesRes)
    (warningsRes : Payload HistoryRes) (s1 : AppState) : AppState :=
  match locationsRes.read "locations" (fun r => r.locations),
      preferencesRes.read "preferences" (fun r => r.preferences),
      warningsRes.read "history" (fun r => r.history) with
  | .ok locations, .ok preferences, .ok history =>
    { s1 with locations := locations.getD [],
              preferences := preferences.getD [],
              warnings := history.getD [],
              loading := false }
  | _, _, _ => { s1 with error := some "Failed to fetch user data", loading := false }

/-- The function `fetchUserData`, given how the three promises handed to
`Promise.all` settle.  `Promise.all` resolves when all three resolve and
rejects as soon as one rejects. -/
def fetchUserData (locationsRes : ApiResult (Payload LocationsRes))
    (preferencesRes : ApiResult (Payload PreferencesRes))
    (warningsRes : ApiResult (Payload HistoryRes)) (s : AppState) : AppState :=
  let s1 := { s with
    loading := true, error := none,
    issued := s.issued ++
      [ApiCall.getLocations, ApiCall.getPreferences, ApiCall.getWarningHistory 50] }
  match locationsRes, preferencesRes, warningsRes with
  | .ok l, .ok p, .ok w => applyFetched l p w s1
  | _, _, _ => { s1 with error := some "Failed to fetch user data", loading := false }

/-- The function `handleAddLocation(location)`, given how `api.addLocation`
settles. -/
def handleAddLocation (res : ApiResult AddLocationRes) (location : String) (s : AppState) :
    AppState :=
  let s1 := { s with error := none, issued := s.issued ++ [ApiCall.addLocation location] }
  match res with
  | .ok response => { s1 with locations := s.locations ++ [response.location] }
  | .error _ => { s1 with error := some "Failed to add location" }

/-- The function `handleRemoveLocation(location)`, given how
`api.removeLocation` settles. -/
def handleRemoveLocation (res : ApiResult Unit) (location : Location) (s : AppState) :
    AppState :=
  let s1 := { s with error := none, issued := s.issued ++ [ApiCall.removeLocation location] }
  match res with
  | .ok _ => { s1 with locations := s.locations.filter (fun loc => loc.name != location.name) }
  | .error _ => { s1 with error := some "Failed to remove location" }

/-- The function `handleUpdatePreferences(newPreferences)`, given how
`api.updatePreferences` settles. -/
def handleUpdatePreferences (res : ApiResult Unit) (newPreferences : Preferences)
    (s : AppState) : AppState :=
  let s1 := { s with error := none, issued := s.issued ++ [ApiCall.updatePreferences newPreferences] }
  match res with
  | .ok _ => { s1 with preferences := newPreferences }
  | .error _ => { s1 with error := some "Failed to update preferences" }

/-! ## `components/LocationPanel.jsx` -/

/-- White space and line terminators of ECMAScript, the characters that
`String.prototype.trim` strips. -/
def isJsSpace (c : Char) : Bool :=
  let n := c.toNat
  n == 0x09 || n == 0x0A || n == 0x0B || n == 0x0C || n == 0x0D || n == 0x20
    || n == 0xA0 || n == 0x1680 || (decide (0x2000 ≤ n) && decide (n ≤ 0x200A))
    || n == 0x2028 || n == 0x2029 || n == 0x202F || n == 0x205F || n == 0x3000
    || n == 0xFEFF

/-- The method `String.prototype.trim`. -/
def jsTrim (s : String) : String :=
  ⟨((s.data.dropWhile isJsSpace).reverse.dropWhile isJsSpace).reverse⟩

/-- The state of `LocationPanel` that `handleSubmit` reads or writes. -/
structure PanelState where
  newLocation : String
  error : Option String
  isAdding : Bool
  deriving DecidableEq, Repr

/-- The function `handleSubmit` of `LocationPanel`.  The prop `onAddLocation`
is a callback acting on the state `σ` of its owner; it returns how its promise
settles. -/
def handleSubmit {σ : Type} (onAddLocation : String → σ → Except JsError Unit × σ)
    (p : PanelState) (s : σ) : PanelState × σ :=
  if jsTrim p.newLocation == "" then (p, s)
  else
    let p1 := { p with isAdding := true, error := none }
    match onAddLocation (jsTrim p.newLocation) s with
    | (.ok _, s1) => ({ p1 with newLocation := "", isAdding := false }, s1)
    | (.error err, s1) =>
      ({ p1 with error := some (if err.message != "" then err.message
                                else "Failed to add location"),
                 isAdding := false }, s1)

/-- The prop `onAddLocation` as `App` passes it: `handleAddLocation` catches
every error, so its promise always resolves. -/
def appOnAddLocation (res : ApiResult AddLocationRes) (location : String) (s : AppState) :
    Except JsError Unit × AppState :=
  (.ok (), handleAddLocation res location s)

/-! ## `Promise.all` in `fetchUserData`, by order of settlement -/

/-- The values collected by `Promise.all`, one slot for each promise of its
argument array; `none` while that promise is pending. -/
structure Slots where
  locations : Option (Payload LocationsRes)
  preferences : Option (Payload PreferencesRes)
  history : Option (Payload HistoryRes)
  deriving DecidableEq, Repr

/-- One promise of the array settles, `index` being its place in the array: a
resolved value goes to the slot of its promise, a rejection rejects the whole,
and once the whole is rejected a later settlement changes nothing. -/
def settle (locationsRes : ApiResult (Payload LocationsRes))
    (preferencesRes : ApiResult (Payload PreferencesRes))
    (warningsRes : ApiResult (Payload HistoryRes)) (acc : Except JsError Slots)
    (index : Fin 3) : Except JsError Slots :=
  match acc with
  | .error e => .error e
  | .ok slots =>
    match index with
    | 0 =>
      match locationsRes with
      | .ok v => .ok { slots with locations := some v }
      | .error e => .error e
    | 1 =>
      match preferencesRes with
      | .ok v => .ok { slots with preferences := some v }
      | .error e => .error e
    | 2 =>
      match warningsRes with
      | .ok v => .ok { slots with history := some v }
      | .error e => .error e

/-- The promise `Promise.all([...])` of `fetchUserData` after its three promises
have settled in the order `order`. -/
def promiseAll (order : List (Fin 3)) (locationsRes : ApiResult (Payload LocationsRes))
    (preferencesRes : ApiResult (Payload PreferencesRes))
    (warningsRes : ApiResult (Payload HistoryRes)) : Except JsError Slots :=
  order.foldl (settle locationsRes preferencesRes warningsRes)
    (.ok { locations := none, preferences := none, history := none })

/-- The function `fetchUserData` with the order of settlement of its three
requests made explicit.  While a slot is empty the function is still waiting
and only its first two setters have run. -/
def fetchUserDataIn (order : List (Fin 3)) (locationsRes : ApiResult (Payload LocationsRes))
    (preferencesRes : ApiResult (Payload PreferencesRes))
    (warningsRes : ApiResult (Payload HistoryRes)) (s : AppState) : AppState :=
  let s1 := { s with
    loading := true, error := none,
    issued := s.issued ++
      [ApiCall.getLocations, ApiCall.getPreferences, ApiCall.getWarningHistory 50] }
  match promiseAll order locationsRes preferencesRes warningsRes with
  | .ok { locations := some l, preferences := some p, history := some w } =>
    applyFetched l p w s1
  | .ok _ => s1
  | .error _ => { s1 with error := some "Failed to fetch user data", loading := false }

/-! ## `components/WarningPanel.jsx` -/

/-- An entry of the constant `warningTypes`. -/
structure WarningType where
  id : String
  label : String
  description : String
  deriving DecidableEq, Repr

/-- The constant `warningTypes`. -/
def warningTypes : List WarningType :=
  [ { id := "rain", label := "Rain", description := "Heavy rainfall and flood warnings" },
    { id := "snow", label := "Snow", description := "Snowfall and blizzard warnings" },
    { id := "wind", label := "Wind", description := "Strong winds and gale warnings" },
    { id := "storm", label := "Storm", description := "Thunderstorms and severe weather" },
    { id := "heat", label := "Heat", description := "Extreme temperature and heat waves" },
    { id := "frost", label := "Frost", description := "Frost and freezing conditions" } ]

/-- The prop `checked` of the checkbox of a type: `preferences[id] ?? true`. -/
def checked (preferences : Preferences) (id : String) : Bool :=
  match preferences.lookup id with
  | some v => v
  | none => true

/-- The object literal `{ ...preferences, [key]: value }`: an existing property
keeps its place and takes the new value, a new one comes last. -/
def withProp : Preferences → String → Bool → Preferences
  | [], key, value => [(key, value)]
  | (k, v) :: rest, key, value =>
    if k == key then (k, value) :: rest else (k, v) :: withProp rest key value

/-- The expression `!preferences[typeId]`; the negation of `undefined` is
`true`. -/
def notProp (preferences : Preferences) (typeId : String) : Bool :=
  match preferences.lookup typeId with
  | some v => !v
  | none => true

/-- The object `newPreferences` built by `handleToggleWarning(typeId)`. -/
def toggledPreferences (preferences : Preferences) (typeId : String) : Preferences :=
  withProp preferences typeId (notProp preferences typeId)

/-- The function `handleToggleWarning(typeId)`; the prop `onUpdatePreferences`
is a callback acting on the state `σ` of its owner. -/
def handleToggleWarning {σ : Type} (onUpdatePreferences : Preferences → σ → σ)
    (preferences : Preferences) (typeId : String) (s : σ) : σ :=
  onUpdatePreferences (toggledPreferences preferences typeId) s

/-- The condition under which the notice `All warnings are currently disabled`
is rendered: `Object.values(preferences).every(v => !v)`. -/
def allDisabledNotice (preferences : Preferences) : Bool :=
  (preferences.map (fun e => e.2)).all (fun v => !v)

/-! ## `components/CalendarPanel.jsx` -/

/-- The accumulator of the `reduce` in `warningsByDate`: its own properties in
order of creation, date key to the records pushed so far. -/
abbrev Groups := List (String × List WarningRecord)

/-- The statement `acc[date].push(warning)`. -/
def pushAt (date : String) (warning : WarningRecord) : Groups → Groups
  | [] => []
  | (k, g) :: rest =>
    if k == date then (k, g ++ [warning]) :: rest else (k, g) :: pushAt date warning rest

/-- The callback of the `reduce`.  The argument `dateKey` stands for the library
call `format(new Date(start_time), 'yyyy-MM-dd')`, the local calendar date of an
instant as text; such a text never names a property that an empty object
inherits. -/
def groupStep (dateKey : Int → String) (acc : Groups) (warning : WarningRecord) : Groups :=
  let date := dateKey warning.start_time
  let acc1 := match acc.lookup date with
    | some _ => acc
    | none => acc ++ [(date, [])]
  pushAt date warning acc1

/-- The constant `warningsByDate`. -/
def warningsByDate (dateKey : Int → String) (warnings : List WarningRecord) : Groups :=
  warnings.foldl (groupStep dateKey) []

/-! ### Dates of the calendar grid

A `Date` is represented by the number of its local calendar day, day 0 being
1 January 1970; the time of day plays no part in the grid.  The day arithmetic
is the one of ECMAScript (`DayFromYear`, `MakeDay`, `WeekDay`). -/

/-- The day number of 1 January of year `y` (`DayFromYear`). -/
def dayFromYear (y : Int) : Int :=
  365 * (y - 1970) + (y - 1969) / 4 - (y - 1901) / 100 + (y - 1601) / 400

/-- Whether year `y` has 366 days. -/
def inLeapYear (y : Int) : Bool :=
  (y % 4 == 0 && y % 100 != 0) || y % 400 == 0

/-- The number of days of a year that precede its month `m`, January being 0. -/
def daysBeforeMonth (leap : Bool) (m : Int) : Int :=
  let extra : Int := if leap then 1 else 0
  if m ≤ 0 then 0
  else if m = 1 then 31
  else if m = 2 then 59 + extra
  else if m = 3 then 90 + extra
  else if m = 4 then 120 + extra
  else if m = 5 then 151 + extra
  else if m = 6 then 181 + extra
  else if m = 7 then 212 + extra
  else if m = 8 then 243 + extra
  else if m = 9 then 273 + extra
  else if m = 10 then 304 + extra
  else 334 + extra

/-- The method `getFullYear`: the year in which a day falls. -/
def getFullYear (day : Int) : Int :=
  let z := day + 719468
  let era := z / 146097
  let doe := z - era * 146097
  let yoe := (doe - doe / 1460 + doe / 36524 - doe / 146096) / 365
  let doy := doe - (365 * yoe + yoe / 4 - yoe / 100)
  let mp := (5 * doy + 2) / 153
  yoe + era * 400 + (if mp < 10 then 0 else 1)

/-- The method `getMonth`: the month in which a day falls, January being 0. -/
def getMonth (day : Int) : Int :=
  let z := day + 719468
  let era := z / 146097
  let doe := z - era * 146097
  let yoe := (doe - doe / 1460 + doe / 36524 - doe / 146096) / 365
  let doy := doe - (365 * yoe + yoe / 4 - yoe / 100)
  let mp := (5 * doy + 2) / 153
  if mp < 10 then mp + 2 else mp - 10

/-- The method `getDate`: the day of the month. -/
def getDate (day : Int) : Int :=
  let z := day + 719468
  let era := z / 146097
  let doe := z - era * 146097
  let yoe := (doe - doe / 1460 + doe / 36524 - doe / 146096) / 365
  let doy := doe - (365 * yoe + yoe / 4 - yoe / 100)
  let mp := (5 * doy + 2) / 153
  doy - (153 * mp + 2) / 5 + 1

/-- The method `getDay`: the day of the week, Sunday being 0 (`WeekDay`). -/
def getDay (day : Int) : Int :=
  (day + 4) % 7

/-- The abstract operation `MakeDay(year, month, date)`. -/
def makeDay (year month date : Int) : Int :=
  let ym := year + month / 12
  let mn := month % 12
  dayFromYear ym + daysBeforeMonth (inLeapYear ym) mn + date - 1

/-- The constructor `new Date(year, month, date)`; a year from 0 to 99 stands
for a year of the twentieth century. -/
def newDate (year month date : Int) : Int :=
  let yr := if 0 ≤ year ∧ year ≤ 99 then 1900 + year else year
  makeDay yr month date

/-- The constant `date` of the grid cell at `index`. -/
def gridCell (selectedDate : Int) (index : Nat) : Int :=
  newDate (getFullYear selectedDate) (getMonth selectedDate)
    ((index : Int) - getDay selectedDate + 1)

/-- The dates of the 35 cells, `Array.from({ length: 35 })` mapped. -/
def gridDates (selectedDate : Int) : List Int :=
  (List.range 35).map (gridCell selectedDate)

/-- The header row of the grid. -/
def weekHeader : List String :=
  ["Sun", "Mon", "Tue", "Wed", "Thu", "Fri", "Sat"]

/-! ## Notions used to state the properties -/

/-- Whether a promise resolved. -/
def resolved {α : Type} : ApiResult α → Bool
  | .ok _ => true
  | .error _ => false

/-- The number of the three fetches of `fetchUserData` that resolved. -/
def resolvedCount (locationsRes : ApiResult (Payload LocationsRes))
    (preferencesRes : ApiResult (Payload PreferencesRes))
    (warningsRes : ApiResult (Payload HistoryRes)) : Nat :=
  (if resolved locationsRes then 1 else 0) + (if resolved preferencesRes then 1 else 0)
    + (if resolved warningsRes then 1 else 0)

/-- A string that is empty or holds white space only. -/
def blank (s : String) : Prop :=
  ∀ c ∈ s.data, isJsSpace c = true

instance (s : String) : Decidable (blank s) := by
  unfold blank
  infer_instance

/-- The two credential keys are both present or both absent. -/
def paired (s : Storage) : Prop :=
  (getItem s "token").isSome = (getItem s "user_email").isSome

instance (s : Storage) : Decidable (paired s) := by
  unfold paired
  infer_instance

/-- Neither credential key holds the empty string. -/
def nonEmptyValues (s : Storage) : Prop :=
  getItem s "token" ≠ some "" ∧ getItem s "user_email" ≠ some ""

/-- The records of `warnings` whose start falls on the date `d`, in their order
in `warnings`. -/
def onDate (dateKey : Int → String) (warnings : List WarningRecord) (d : String) :
    List WarningRecord :=
  warnings.filter (fun w => dateKey w.start_time == d)

/-- The groups `acc` are the partition of `warnings` by date: under each date
stands the sequence of the records of that date, no group is empty, no date
occurs twice, and the sizes add up. -/
def Grouped (dateKey : Int → String) (warnings : List WarningRecord) (acc : Groups) : Prop :=
  (∀ d, acc.lookup d
      = if onDate dateKey warnings d = [] then none else some (onDate dateKey warnings d)) ∧
    (∀ e ∈ acc, e.2 ≠ []) ∧
    (acc.map Prod.fst).Nodup ∧
    (acc.map (fun e => e.2.length)).sum = warnings.length

/-! ## Lemmas on the store -/

theorem getItem_remove_self (s : Storage) (k : String) : getItem (s.remove k) k = none := by
  induction s with
  | nil => rfl
  | cons e es ih =>
    obtain ⟨a, v⟩ := e
    by_cases h : a = k
    · subst h
      simpa [Storage.remove, getItem, List.filter_cons] using ih
    · have hk : (k == a) = false := by simpa using fun h2 => h h2.symm
      simpa [Storage.remove, getItem, List.filter_cons, h, List.lookup_cons, hk] using ih

theorem getItem_remove_ne (s : Storage) (k j : String) (h : j ≠ k) :
    getItem (s.remove k) j = getItem s j := by
  induction s with
  | nil => rfl
  | cons e es ih =>
    obtain ⟨a, v⟩ := e
    by_cases ha : a = k
    · subst ha
      have hj : (j == a) = false := by simpa using h
      simpa [Storage.remove, getItem, List.filter_cons, List.lookup_cons, hj] using ih
    · by_cases hja : j = a
      · subst hja
        simp [Storage.remove, getItem, List.filter_cons, ha, List.lookup_cons]
      · have hj : (j == a) = false := by simpa using hja
        simpa [Storage.remove, getItem, List.filter_cons, ha, List.lookup_cons, hj] using ih

theorem getItem_set_self (s : Storage) (k v : String) : getItem (s.set k v) k = some v := by
  simp [Storage.set, getItem, List.lookup_cons]

theorem getItem_set_ne (s : Storage) (k v j : String) (h : j ≠ k) :
    getItem (s.set k v) j = getItem s j := by
  have hj : (j == k) = false := by simpa using h
  simp only [Storage.set, getItem, List.lookup_cons, hj]
  exact getItem_remove_ne s k j h

theorem remove_remove_self (s : Storage) (k : String) : (s.remove k).remove k = s.remove k := by
  simp [Storage.remove, List.filter_filter]

theorem remove_comm (s : Storage) (k j : String) :
    (s.remove k).remove j = (s.remove j).remove k := by
  simp [Storage.remove, List.filter_filter, Bool.and_comm]

/-! ## The request pipeline on a 401 response -/

/-- C1: for every response with status 401, whatever the endpoint, the options,
the body and the prior browser state, `request` fails with the error
`Session expired` (not with an error built from the body), both keys `token`
and `user_email` are absent from the store afterwards, and the actions performed
are the `fetch`, one `removeItem` for `token`, one `removeItem` for
`user_email` and the reload, in this order. -/
theorem request_unauthorized (endpoint : String) (options : RequestOptions) (r : Response)
    (b : Browser) (h : r.status = 401) :
    (request endpoint options (.resolved r) b).1
        = .error { name := "Error", message := "Session expired" } ∧
      (request endpoint options (.resolved r) b).2.storage
        = (b.storage.remove "token").remove "user_email" ∧
      getItem (request endpoint options (.resolved r) b).2.storage "token" = none ∧
      getItem (request endpoint options (.resolved r) b).2.storage "user_email" = none ∧
      (request endpoint options (.resolved r) b).2.trace
        = b.trace ++
          [Effect.fetch endpoint options.method
              (requestHeaders (getItem b.storage "token") options) options.body,
            Effect.removeItem "token", Effect.removeItem "user_email", Effect.reload] ∧
      ((request endpoint options (.resolved r) b).2.trace.drop b.trace.length).count
          (Effect.removeItem "token") = 1 ∧
      ((request endpoint options (.resolved r) b).2.trace.drop b.trace.length).count
          (Effect.removeItem "user_email") = 1 := by
  have hok : r.ok = false := by simp [Response.ok, h]
  have hreq : request endpoint options (.resolved r) b
      = (.error { name := "Error", message := "Session expired" },
          { storage := (b.storage.remove "token").remove "user_email",
            trace := b.trace ++
              [Effect.fetch endpoint options.method
                  (requestHeaders (getItem b.storage "token") options) options.body,
                Effect.removeItem "token", Effect.removeItem "user_email",
                Effect.reload] }) := by
    simp [request, hok, h, Browser.emit, Browser.removeItem, newError, Json.toStr]
  rw [hreq]
  refine ⟨rfl, rfl, ?_, ?_, rfl, ?_, ?_⟩
  · show getItem ((b.storage.remove "token").remove "user_email") "token" = none
    rw [getItem_remove_ne _ _ _ (by decide)]
    exact getItem_remove_self _ _
  · exact getItem_remove_self _ _
  · simp [List.count_cons]
  · simp [List.count_cons]

/-- A 401 response carrying an error body, received while a credential is
stored. -/
theorem request_unauthorized_witness :
    (401 : Nat) = 401 ∧
      (request "/locations" {}
          (.resolved { status := 401, contentType := some "application/json",
                       text := "", json := .ok (.obj [("message", .str "token revoked")]) })
          { storage := [("token", "abc"), ("user_email", "a@b.c")], trace := [] }).1
        = .error { name := "Error", message := "Session expired" } :=
  ⟨rfl, (request_unauthorized "/locations" {}
      { status := 401, contentType := some "application/json",
        text := "", json := .ok (.obj [("message", .str "token revoked")]) }
      { storage := [("token", "abc"), ("user_email", "a@b.c")], trace := [] } rfl).1⟩

/-! ## Session transitions -/

/-- C2: for every pair of non-empty strings `token`, `email` and every prior
session and browser state, after `handleAuthCallback(token, email)` the session
is authenticated with identity `{ email }`, and the store returns that token
under `token` and that email under `user_email`. -/
theorem handleAuthCallback_roundtrip (token email : String) (a : AuthState) (b : Browser)
    (ht : token ≠ "") (he : email ≠ "") :
    (handleAuthCallback (some token) (some email) a b).1.isAuthenticated = true ∧
      (handleAuthCallback (some token) (some email) a b).1.user = some { email := email } ∧
      getItem (handleAuthCallback (some token) (some email) a b).2.storage "token"
        = some token ∧
      getItem (handleAuthCallback (some token) (some email) a b).2.storage "user_email"
        = some email := by
  have hcall : handleAuthCallback (some token) (some email) a b
      = ({ a with isAuthenticated := true, user := some { email := email } },
          (b.setItem "token" token).setItem "user_email" email) := by
    simp [handleAuthCallback, truthyStr, ht, he]
  rw [hcall]
  refine ⟨rfl, rfl, ?_, ?_⟩
  · show getItem ((b.storage.set "token" token).set "user_email" email) "token" = some token
    rw [getItem_set_ne _ _ _ _ (by decide)]
    exact getItem_set_self _ _ _
  · exact getItem_set_self _ _ _

/-- A callback completed over a session that was signed in as somebody else. -/
theorem handleAuthCallback_roundtrip_witness :
    "tok-1" ≠ "" ∧ "ann@example.org" ≠ "" ∧
      getItem (handleAuthCallback (some "tok-1") (some "ann@example.org")
          { isAuthenticated := true, user := some { email := "bob@example.org" },
            loading := false, error := none }
          { storage := [("user_email", "bob@example.org"), ("token", "old")],
            trace := [] }).2.storage "token" = some "tok-1" :=
  ⟨by decide, by decide,
    (handleAuthCallback_roundtrip "tok-1" "ann@example.org"
      { isAuthenticated := true, user := some { email := "bob@example.org" },
        loading := false, error := none }
      { storage := [("user_email", "bob@example.org"), ("token", "old")], trace := [] }
      (by decide) (by decide)).2.2.1⟩

/-- C3: for every prior session state and store, `logout()` yields the
unauthenticated session (`isAuthenticated` false, `user` null) with both
credential keys absent from the store, and a second `logout()` leaves the
session state and the store as the first one left them. -/
theorem logout_unauthenticated_idempotent (a : AuthState) (b : Browser) :
    (logout a b).1.isAuthenticated = false ∧
      (logout a b).1.user = none ∧
      getItem (logout a b).2.storage "token" = none ∧
      getItem (logout a b).2.storage "user_email" = none ∧
      (logout (logout a b).1 (logout a b).2).1 = (logout a b).1 ∧
      (logout (logout a b).1 (logout a b).2).2.storage = (logout a b).2.storage := by
  refine ⟨rfl, rfl, ?_, ?_, rfl, ?_⟩
  · show getItem ((b.storage.remove "token").remove "user_email") "token" = none
    rw [getItem_remove_ne _ _ _ (by decide)]
    exact getItem_remove_self _ _
  · exact getItem_remove_self _ _
  · show ((((b.storage.remove "token").remove "user_email").remove "token").remove
        "user_email") = (b.storage.remove "token").remove "user_email"
    rw [remove_comm (b.storage.remove "token") "user_email" "token", remove_remove_self,
      remove_remove_self]

/-! ## Loading the three collections -/

/-- C4, as stated, fails: the locations and the preferences are fetched, the
warning history is not, and neither of the two fetched collections reaches its
cache. -/
theorem fetchUserData_partial_counterexample :
    resolvedCount (.ok (.value { locations := some [{ name := "Vienna" }] }))
        (.ok (.value { preferences := some [("rain", false)] }))
        (.error { name := "TypeError", message := "Failed to fetch" }) = 2 ∧
      (fetchUserData (.ok (.value { locations := some [{ name := "Vienna" }] }))
        (.ok (.value { preferences := some [("rain", false)] }))
        (.error { name := "TypeError", message := "Failed to fetch" })
        AppState.initial).locations = [] ∧
      (fetchUserData (.ok (.value { locations := some [{ name := "Vienna" }] }))
        (.ok (.value { preferences := some [("rain", false)] }))
        (.error { name := "TypeError", message := "Failed to fetch" })
        AppState.initial).preferences = [] ∧
      (fetchUserData (.ok (.value { locations := some [{ name := "Vienna" }] }))
        (.ok (.value { preferences := some [("rain", false)] }))
        (.error { name := "TypeError", message := "Failed to fetch" })
        AppState.initial).locations ≠ [{ name := "Vienna" }] := by
  refine ⟨rfl, rfl, rfl, ?_⟩
  simp [fetchUserData, AppState.initial]

/-- C4, amended: for every outcome of `fetchUserData` in which exactly two of
the three fetches succeed and one fails, exactly one aggregate error,
`Failed to fetch user data`, is reported and each of the three caches keeps its
value from before the call. -/
theorem fetchUserData_partial_keeps_caches (locationsRes : ApiResult (Payload LocationsRes))
    (preferencesRes : ApiResult (Payload PreferencesRes))
    (warningsRes : ApiResult (Payload HistoryRes)) (s : AppState) (h : resolvedCount locationsRes preferencesRes warningsRes = 2) :
    (fetchUserData locationsRes preferencesRes warningsRes s).error
        = some "Failed to fetch user data" ∧
      (fetchUserData locationsRes preferencesRes warningsRes s).locations = s.locations ∧
      (fetchUserData locationsRes preferencesRes warningsRes s).preferences = s.preferences ∧
      (fetchUserData locationsRes preferencesRes warningsRes s).warnings = s.warnings ∧
      (fetchUserData locationsRes preferencesRes warningsRes s).loading = false := by
  cases locationsRes <;> cases preferencesRes <;> cases warningsRes <;>
    simp [resolvedCount, resolved] at h <;> simp [fetchUserData]

/-- The preferences fail to load while the two other collections arrive. -/
theorem fetchUserData_partial_keeps_caches_witness :
    resolvedCount (.ok (.value { locations := some [{ name := "Graz" }] }))
        (.error { name := "Error", message := "Request failed" })
        (.ok (.value { history := none })) = 2 ∧
      (fetchUserData (.ok (.value { locations := some [{ name := "Graz" }] }))
        (.error { name := "Error", message := "Request failed" })
        (.ok (.value { history := none }))
        AppState.initial).error = some "Failed to fetch user data" :=
  ⟨rfl, (fetchUserData_partial_keeps_caches (.ok (.value { locations := some [{ name := "Graz" }] }))
      (.error { name := "Error", message := "Request failed" })
      (.ok (.value { history := none })) AppState.initial rfl).1⟩

/-! ## Adding and removing locations, updating preferences -/

theorem jsTrim_blank (s : String) (h : blank s) : jsTrim s = "" := by
  have hd : s.data.dropWhile isJsSpace = [] := by
    rw [List.dropWhile_eq_nil_iff]
    exact h
  simp [jsTrim, hd]

/-- C5, as stated, fails: submitting three spaces issues no call, and no error
is reported either, in the panel or in the application. -/
theorem handleSubmit_blank_counterexample :
    blank "   " ∧
      (handleSubmit (appOnAddLocation (.ok { location := { name := "Vienna" } }))
        { newLocation := "   ", error := none, isAdding := false }
        { AppState.initial with loading := false }).1.error = none ∧
      (handleSubmit (appOnAddLocation (.ok { location := { name := "Vienna" } }))
        { newLocation := "   ", error := none, isAdding := false }
        { AppState.initial with loading := false }).2.error = none := by
  have hb : blank "   " := by decide
  refine ⟨hb, ?_, ?_⟩ <;> simp [handleSubmit, jsTrim_blank _ hb, AppState.initial]

/-- C5, amended: for every input that is empty or holds white space only, and
however the server would answer, submitting the form issues no network call and
leaves the panel state and the application state, their error fields included,
exactly as they were. -/
theorem handleSubmit_blank_noop (res : ApiResult AddLocationRes) (p : PanelState)
    (s : AppState) (h : blank p.newLocation) :
    handleSubmit (appOnAddLocation res) p s = (p, s) ∧
      (handleSubmit (appOnAddLocation res) p s).2.issued = s.issued ∧
      (handleSubmit (appOnAddLocation res) p s).1.error = p.error ∧
      (handleSubmit (appOnAddLocation res) p s).2.error = s.error := by
  have hs : handleSubmit (appOnAddLocation res) p s = (p, s) := by
    simp [handleSubmit, jsTrim_blank _ h]
  rw [hs]
  exact ⟨rfl, rfl, rfl, rfl⟩

/-- A tab, a no-break space and a line feed are submitted. -/
theorem handleSubmit_blank_noop_witness :
    blank "\t\u00A0\n" ∧
      (handleSubmit (appOnAddLocation (.error { name := "Error", message := "Request failed" }))
        { newLocation := "\t\u00A0\n", error := none, isAdding := false }
        AppState.initial).2.issued = [] :=
  ⟨by decide,
    (handleSubmit_blank_noop (.error { name := "Error", message := "Request failed" })
      { newLocation := "\t\u00A0\n", error := none, isAdding := false }
      AppState.initial (by decide)).2.1⟩

/-- C6: for every current preference map and every new map, when the server
call of `handleUpdatePreferences` fails the preference cache keeps its value
from before the call, when it succeeds the cache is the new map, and so the
cache can differ from its former value only after a successful call. -/
theorem handleUpdatePreferences_write_through (newPreferences : Preferences) (s : AppState)
    (e : JsError) (res : ApiResult Unit) :
    (handleUpdatePreferences (.error e) newPreferences s).preferences = s.preferences ∧
      (handleUpdatePreferences (.ok ()) newPreferences s).preferences = newPreferences ∧
      ((handleUpdatePreferences res newPreferences s).preferences
        = if resolved res then newPreferences else s.preferences) := by
  refine ⟨rfl, rfl, ?_⟩
  cases res <;> rfl

/-- C7: for every location cache and every successful response
`{ location: x }`, after `handleAddLocation` the cache is the former cache with
`x` appended at the end: one entry longer, the former entries unchanged and in
order, and `x` occurring once more than before, whether or not the cache already
held it. -/
theorem handleAddLocation_appends (x : Location) (location : String) (s : AppState) :
    (handleAddLocation (.ok { location := x }) location s).locations = s.locations ++ [x] ∧
      (handleAddLocation (.ok { location := x }) location s).locations.length
        = s.locations.length + 1 ∧
      (handleAddLocation (.ok { location := x }) location s).locations.take s.locations.length
        = s.locations ∧
      (handleAddLocation (.ok { location := x }) location s).locations.getLast? = some x ∧
      (handleAddLocation (.ok { location := x }) location s).locations.count x
        = s.locations.count x + 1 := by
  have hl : (handleAddLocation (.ok { location := x }) location s).locations
      = s.locations ++ [x] := rfl
  rw [hl]
  refine ⟨rfl, by simp, by simp, by simp, by simp⟩

/-- C8: for every location cache and target `t`, after a successful
`handleRemoveLocation(t)` the cache holds exactly the former entries whose name
differs from the name of `t`, in their former order; a cache of one entry named
like `t` becomes empty, and a cache with no entry named like `t` is unchanged. -/
theorem handleRemoveLocation_removes (t : Location) (s : AppState) :
    (handleRemoveLocation (.ok ()) t s).locations
        = s.locations.filter (fun loc => loc.name != t.name) ∧
      (handleRemoveLocation (.ok ()) t s).locations.Sublist s.locations ∧
      (∀ loc, loc ∈ (handleRemoveLocation (.ok ()) t s).locations
        ↔ loc ∈ s.locations ∧ loc.name ≠ t.name) ∧
      (∀ loc, s.locations = [loc] → loc.name = t.name →
        (handleRemoveLocation (.ok ()) t s).locations = []) ∧
      ((∀ loc ∈ s.locations, loc.name ≠ t.name) →
        (handleRemoveLocation (.ok ()) t s).locations = s.locations) := by
  have hl : (handleRemoveLocation (.ok ()) t s).locations
      = s.locations.filter (fun loc => loc.name != t.name) := rfl
  rw [hl]
  refine ⟨rfl, List.filter_sublist _, ?_, ?_, ?_⟩
  · intro loc
    simp [List.mem_filter]
  · intro loc hs hn
    simp [hs, hn]
  · intro hall
    rw [List.filter_eq_self]
    intro loc hloc
    simpa using hall loc hloc

/-- Vienna is removed from a cache that holds Vienna only, and from a cache
that holds Graz only. -/
theorem handleRemoveLocation_removes_witness :
    (handleRemoveLocation (.ok ()) { name := "Vienna" }
        { AppState.initial with locations := [{ name := "Vienna", address := some "AT" }] }
      ).locations = [] ∧
      (handleRemoveLocation (.ok ()) { name := "Vienna" }
        { AppState.initial with locations := [{ name := "Graz" }] }).locations
        = [{ name := "Graz" }] :=
  ⟨(handleRemoveLocation_removes { name := "Vienna" }
      { AppState.initial with locations := [{ name := "Vienna", address := some "AT" }] }
    ).2.2.2.1 { name := "Vienna", address := some "AT" } rfl rfl,
   (handleRemoveLocation_removes { name := "Vienna" }
      { AppState.initial with locations := [{ name := "Graz" }] }).2.2.2.2
    (by intro loc hloc; simp at hloc; subst hloc; decide)⟩

/-! ## The credential keys -/

theorem paired_remove_both (s : Storage) : paired ((s.remove "token").remove "user_email") := by
  unfold paired
  rw [getItem_remove_ne _ _ _ (by decide), getItem_remove_self, getItem_remove_self]

/-- C9: from every store in which `token` and `user_email` are both present or
both absent, each operation that writes the credential leaves a store in which
the token is present exactly when the email is: `handleAuthCallback` with any
arguments (null and empty ones included), `logout`, and `request` on a 401
response. -/
theorem credential_keys_paired (a : AuthState) (b : Browser) (token email : Option String)
    (endpoint : String) (options : RequestOptions) (r : Response)
    (h : paired b.storage) (h401 : r.status = 401) :
    paired (handleAuthCallback token email a b).2.storage ∧
      paired (logout a b).2.storage ∧
      paired (request endpoint options (.resolved r) b).2.storage := by
  refine ⟨?_, paired_remove_both b.storage, ?_⟩
  · unfold handleAuthCallback
    split
    · split
      · show paired ((b.storage.set "token" _).set "user_email" _)
        unfold paired
        rw [getItem_set_ne _ _ _ _ (by decide), getItem_set_self, getItem_set_self]
        rfl
      · exact h
    · exact h
  · have hok : r.ok = false := by simp [Response.ok, h401]
    have hs : (request endpoint options (.resolved r) b).2.storage
        = (b.storage.remove "token").remove "user_email" := by
      simp [request, hok, h401, Browser.emit, Browser.removeItem]
    rw [hs]
    exact paired_remove_both b.storage

/-- Over a store that holds the credential of another user: a callback that
overwrites both keys, a logout that removes both, and a 401 response that
removes both. -/
theorem credential_keys_paired_witness :
    paired [("token", "old"), ("user_email", "bob@example.org")] ∧ (401 : Nat) = 401 ∧
      (paired (handleAuthCallback (some "tok-1") (some "ann@example.org")
          { isAuthenticated := true, user := some { email := "bob@example.org" },
            loading := false, error := none }
          { storage := [("token", "old"), ("user_email", "bob@example.org")],
            trace := [] }).2.storage ∧
        paired (logout
          { isAuthenticated := true, user := some { email := "bob@example.org" },
            loading := false, error := none }
          { storage := [("token", "old"), ("user_email", "bob@example.org")],
            trace := [] }).2.storage ∧
        paired (request "/locations" {}
          (.resolved { status := 401, contentType := none, text := "", json := .ok .null })
          { storage := [("token", "old"), ("user_email", "bob@example.org")],
            trace := [] }).2.storage) :=
  ⟨by decide, rfl,
    credential_keys_paired
      { isAuthenticated := true, user := some { email := "bob@example.org" },
        loading := false, error := none }
      { storage := [("token", "old"), ("user_email", "bob@example.org")], trace := [] }
      (some "tok-1") (some "ann@example.org") "/locations" {}
      { status := 401, contentType := none, text := "", json := .ok .null }
      (by decide) rfl⟩

/-- In the example above the three operations do write: the callback stores
the new pair, the logout and the 401 response leave the store empty. -/
theorem credential_writes_example :
    (handleAuthCallback (some "tok-1") (some "ann@example.org")
        { isAuthenticated := true, user := some { email := "bob@example.org" },
          loading := false, error := none }
        { storage := [("token", "old"), ("user_email", "bob@example.org")],
          trace := [] }).2.storage
        = [("user_email", "ann@example.org"), ("token", "tok-1")] ∧
      (logout
        { isAuthenticated := true, user := some { email := "bob@example.org" },
          loading := false, error := none }
        { storage := [("token", "old"), ("user_email", "bob@example.org")],
          trace := [] }).2.storage = [] ∧
      (request "/locations" {}
        (.resolved { status := 401, contentType := none, text := "", json := .ok .null })
        { storage := [("token", "old"), ("user_email", "bob@example.org")],
          trace := [] }).2.storage = [] := by
  decide

/-- No operation stores an empty value under a credential key: from a store
whose credential keys hold no empty string, `handleAuthCallback`, `logout` and
`request`, however `fetch` settles, lead to such a store again. -/
theorem credential_values_non_empty (a : AuthState) (b : Browser) (token email : Option String)
    (endpoint : String) (options : RequestOptions) (res : FetchResult)
    (h : nonEmptyValues b.storage) :
    nonEmptyValues (handleAuthCallback token email a b).2.storage ∧
      nonEmptyValues (logout a b).2.storage ∧
      nonEmptyValues (request endpoint options res b).2.storage := by
  have hrem : nonEmptyValues ((b.storage.remove "token").remove "user_email") := by
    unfold nonEmptyValues
    rw [getItem_remove_ne _ _ _ (by decide), getItem_remove_self, getItem_remove_self]
    simp
  refine ⟨?_, hrem, ?_⟩
  · unfold handleAuthCallback
    split
    · rename_i t e
      split
      · rename_i hte
        have ht : t ≠ "" := by
          intro h0
          simp [truthyStr, h0] at hte
        have he : e ≠ "" := by
          intro h0
          simp [truthyStr, h0] at hte
        show nonEmptyValues ((b.storage.set "token" t).set "user_email" e)
        unfold nonEmptyValues
        rw [getItem_set_ne _ _ _ _ (by decide), getItem_set_self, getItem_set_self]
        simp [ht, he]
      · exact h
    · exact h
  · have hs : (request endpoint options res b).2.storage = b.storage ∨
        (request endpoint options res b).2.storage
          = (b.storage.remove "token").remove "user_email" := by
      unfold request
      cases res with
      | rejected e => exact Or.inl rfl
      | resolved r =>
        by_cases hok : r.ok = true
        · left
          simp only [hok, Bool.not_true, Bool.false_eq_true, if_false]
          split
          · split <;> rfl
          · rfl
        · by_cases h401 : r.status = 401
          · right
            simp [hok, h401, Browser.emit, Browser.removeItem]
          · left
            simp only [hok, h401, Bool.not_false, if_true, if_false]
            split <;> rfl
    rcases hs with hs | hs
    · rw [hs]
      exact h
    · rw [hs]
      exact hrem

/-! ## Startup -/

/-- C10: for every store, the startup check yields the authenticated session
with identity equal to the stored email when a credential is persisted, that
is when `token` and `user_email` both hold a non-empty string (the only values
that the session transitions store), and the unauthenticated session with a
null identity otherwise, when either key is absent or holds the empty string;
in both cases it performs no action on the browser, so no network call is
issued and the store is unchanged. -/
theorem checkAuth_startup (a : AuthState) (b : Browser) :
    (∀ t e, getItem b.storage "token" = some t → getItem b.storage "user_email" = some e →
        t ≠ "" → e ≠ "" →
        (checkAuth a b).1.isAuthenticated = true ∧
          (checkAuth a b).1.user = some { email := e }) ∧
      ((getItem b.storage "token" = none ∨ getItem b.storage "token" = some "" ∨
          getItem b.storage "user_email" = none ∨ getItem b.storage "user_email" = some "") →
        (checkAuth a b).1.isAuthenticated = false ∧ (checkAuth a b).1.user = none) ∧
      (checkAuth a b).2 = b ∧
      (checkAuth a b).2.fetches = b.fetches ∧
      (checkAuth a b).2.storage = b.storage ∧
      (checkAuth a b).1.loading = false := by
  refine ⟨?_, ?_, ?_, ?_, ?_, ?_⟩
  · intro t e ht he hne hne2
    simp [checkAuth, ht, he, truthyStr, hne, hne2]
  · intro h
    rcases h with h | h | h | h <;> simp [checkAuth, h, truthyStr]
  all_goals
    by_cases hc : (truthyStr (getItem b.storage "token")
      && truthyStr (getItem b.storage "user_email")) = true <;> simp [checkAuth, hc]

/-- Startup over a stored credential, and over an empty store. -/
theorem checkAuth_startup_witness :
    (checkAuth AuthState.initial
        { storage := [("token", "abc"), ("user_email", "ann@example.org")], trace := [] }
      ).1.user = some { email := "ann@example.org" } ∧
      (checkAuth AuthState.initial { storage := [], trace := [] }).1.isAuthenticated = false :=
  ⟨((checkAuth_startup AuthState.initial
        { storage := [("token", "abc"), ("user_email", "ann@example.org")], trace := [] }).1
      "abc" "ann@example.org" rfl rfl (by decide) (by decide)).2,
   ((checkAuth_startup AuthState.initial { storage := [], trace := [] }).2.1
      (Or.inl rfl)).1⟩

/-! ## Failed mutations -/

/-- C11: for every location cache, when the server call of `handleAddLocation`
or of `handleRemoveLocation` fails, with whatever error, the location cache
after the call equals the cache before it and the error message of the failed
action is set. -/
theorem location_mutation_failure_keeps_cache (e : JsError) (input : String) (t : Location)
    (s : AppState) :
    (handleAddLocation (.error e) input s).locations = s.locations ∧
      (handleAddLocation (.error e) input s).error = some "Failed to add location" ∧
      (handleRemoveLocation (.error e) t s).locations = s.locations ∧
      (handleRemoveLocation (.error e) t s).error = some "Failed to remove location" :=
  ⟨rfl, rfl, rfl, rfl⟩

/-- C12, at the failing input: `Vienna` is submitted, the server call fails,
and the input text is cleared all the same; the panel shows no error, the
application does. -/
theorem handleSubmit_failure_clears_input :
    jsTrim "Vienna" ≠ "" ∧
      (handleSubmit (appOnAddLocation (.error { name := "Error", message := "Request failed" }))
        { newLocation := "Vienna", error := none, isAdding := false }
        { AppState.initial with loading := false }).1.newLocation = "" ∧
      (handleSubmit (appOnAddLocation (.error { name := "Error", message := "Request failed" }))
        { newLocation := "Vienna", error := none, isAdding := false }
        { AppState.initial with loading := false }).1.error = none ∧
      (handleSubmit (appOnAddLocation (.error { name := "Error", message := "Request failed" }))
        { newLocation := "Vienna", error := none, isAdding := false }
        { AppState.initial with loading := false }).2.error = some "Failed to add location" ∧
      (handleSubmit (appOnAddLocation (.error { name := "Error", message := "Request failed" }))
        { newLocation := "Vienna", error := none, isAdding := false }
        { AppState.initial with loading := false }).2.locations = [] := by
  decide

/-- Whatever the server answers, a submit with a non-blank input clears the
input when `App.handleAddLocation` is the callback. -/
theorem handleSubmit_app_always_clears (res : ApiResult AddLocationRes) (p : PanelState)
    (s : AppState) (h : jsTrim p.newLocation ≠ "") :
    (handleSubmit (appOnAddLocation res) p s).1.newLocation = "" := by
  simp [handleSubmit, appOnAddLocation, h]

/-! ## The request pipeline on other error responses -/

/-- C13, at the failing input: a 500 response whose body is the JSON value
`null`.  The store is untouched and the call fails, but with the `TypeError` of
the read of `message` on `null`, not with `Request failed`. -/
theorem request_null_error_body :
    (request "/locations" {}
        (.resolved { status := 500, contentType := some "application/json",
                     text := "null", json := .ok .null })
        { storage := [("token", "abc"), ("user_email", "a@b.c")], trace := [] }).1
        = .error { name := "TypeError",
                   message := "Cannot read properties of null (reading \x27message\x27)" } ∧
      (request "/locations" {}
        (.resolved { status := 500, contentType := some "application/json",
                     text := "null", json := .ok .null })
        { storage := [("token", "abc"), ("user_email", "a@b.c")], trace := [] }).1
        ≠ .error { name := "Error", message := "Request failed" } ∧
      (request "/locations" {}
        (.resolved { status := 500, contentType := some "application/json",
                     text := "null", json := .ok .null })
        { storage := [("token", "abc"), ("user_email", "a@b.c")], trace := [] }).2.storage
        = [("token", "abc"), ("user_email", "a@b.c")] := by
  refine ⟨?_, ?_, ?_⟩ <;>
    simp [request, Response.ok, errorMessage, getProp, nullReadError, Browser.emit]

/-- On every response that is not ok and not a 401, `request` fails, leaves the
store as it was and performs the `fetch` only. -/
theorem request_failure_keeps_store (endpoint : String) (options : RequestOptions)
    (r : Response) (b : Browser) (hok : r.ok = false) (h401 : r.status ≠ 401) :
    (∃ e, (request endpoint options (.resolved r) b).1 = .error e) ∧
      (request endpoint options (.resolved r) b).2.storage = b.storage ∧
      (request endpoint options (.resolved r) b).2.trace
        = b.trace ++ [Effect.fetch endpoint options.method
            (requestHeaders (getItem b.storage "token") options) options.body] := by
  unfold request
  simp only [hok, h401, Bool.not_false, if_true, if_false]
  split <;> exact ⟨⟨_, rfl⟩, rfl, rfl⟩

/-- On such a response whose body does not parse as JSON, the error carries
`Request failed`. -/
theorem request_unparseable_body (endpoint : String) (options : RequestOptions)
    (r : Response) (b : Browser) (e : JsError) (hok : r.ok = false) (h401 : r.status ≠ 401)
    (hj : r.json = .error e) :
    (request endpoint options (.resolved r) b).1
      = .error { name := "Error", message := "Request failed" } := by
  simp [request, hok, h401, hj, errorMessage, getProp, truthy, newError, Json.toStr]

/-- On such a response whose body is a JSON object, the error carries the
`message` field when it is truthy, else the `error` field when it is truthy,
else `Request failed`. -/
theorem request_object_body (endpoint : String) (options : RequestOptions)
    (r : Response) (b : Browser) (fields : List (String × Json)) (hok : r.ok = false)
    (h401 : r.status ≠ 401) (hj : r.json = .ok (.obj fields)) :
    (request endpoint options (.resolved r) b).1
      = .error (newError
          (if truthy (fields.lookup "message") then (fields.lookup "message").getD .null
           else if truthy (fields.lookup "error") then (fields.lookup "error").getD .null
           else .str "Request failed")) := by
  simp only [request, hok, h401, hj, errorMessage, getProp, Bool.not_false, if_true, if_false]
  split_ifs <;> rfl

/-! ## Loading the three collections, in any order -/

theorem order_cases (order : List (Fin 3)) (h : order.Perm [0, 1, 2]) :
    order = [0, 1, 2] ∨ order = [1, 0, 2] ∨ order = [2, 1, 0] ∨ order = [1, 2, 0] ∨
      order = [2, 0, 1] ∨ order = [0, 2, 1] := by
  have key : ∀ a b c : Fin 3, List.Perm [a, b, c] [0, 1, 2] →
      ([a, b, c] = [0, 1, 2] ∨ [a, b, c] = [1, 0, 2] ∨ [a, b, c] = [2, 1, 0] ∨
        [a, b, c] = [1, 2, 0] ∨ [a, b, c] = [2, 0, 1] ∨ [a, b, c] = [0, 2, 1]) := by
    decide
  have hlen : order.length = 3 := by simpa using h.length_eq
  obtain ⟨a, b, c, rfl⟩ := List.length_eq_three.1 hlen
  exact key a b c h

/-- In whatever order the three requests settle, the outcome of `fetchUserData`
is the one computed from the three results alone. -/
theorem fetchUserDataIn_eq (order : List (Fin 3))
    (locationsRes : ApiResult (Payload LocationsRes))
    (preferencesRes : ApiResult (Payload PreferencesRes))
    (warningsRes : ApiResult (Payload HistoryRes)) (s : AppState) (h : order.Perm [0, 1, 2]) :
    fetchUserDataIn order locationsRes preferencesRes warningsRes s
      = fetchUserData locationsRes preferencesRes warningsRes s := by
  rcases order_cases order h with h | h | h | h | h | h <;> subst h <;>
    cases locationsRes <;> cases preferencesRes <;> cases warningsRes <;>
    simp [fetchUserDataIn, fetchUserData, promiseAll, settle]

/-- When the three requests resolve and one of the resolved values is `null`,
the read of its field throws: the aggregate error is reported and no cache is
written. -/
theorem fetchUserData_null_payload (l : Payload LocationsRes) (p : Payload PreferencesRes)
    (w : Payload HistoryRes) (s : AppState) (h : l = .null ∨ p = .null ∨ w = .null) :
    (fetchUserData (.ok l) (.ok p) (.ok w) s).error = some "Failed to fetch user data" ∧
      (fetchUserData (.ok l) (.ok p) (.ok w) s).locations = s.locations ∧
      (fetchUserData (.ok l) (.ok p) (.ok w) s).preferences = s.preferences ∧
      (fetchUserData (.ok l) (.ok p) (.ok w) s).warnings = s.warnings := by
  cases l <;> cases p <;> cases w <;> simp at h <;>
    simp [fetchUserData, applyFetched, Payload.read]

/-- C14, as stated, fails: the three requests succeed, the one for the
preferences with status 200 and the JSON body `null`, which `request` resolves
to `null`.  The read of `preferences` on it throws, the aggregate error is
reported, and the locations that were fetched do not reach their cache. -/
theorem fetchUserData_null_payload_counterexample :
    (request "/preferences" {}
        (.resolved { status := 200, contentType := some "application/json",
                     text := "null", json := .ok .null })
        { storage := [("token", "abc"), ("user_email", "a@b.c")], trace := [] }).1
        = .ok .null ∧
      (fetchUserDataIn [0, 1, 2] (.ok (.value { locations := some [{ name := "Vienna" }] }))
        (.ok .null) (.ok (.value { history := some [] })) AppState.initial).error
        = some "Failed to fetch user data" ∧
      (fetchUserDataIn [0, 1, 2] (.ok (.value { locations := some [{ name := "Vienna" }] }))
        (.ok .null) (.ok (.value { history := some [] })) AppState.initial).locations = [] ∧
      (fetchUserDataIn [0, 1, 2] (.ok (.value { locations := some [{ name := "Vienna" }] }))
        (.ok .null) (.ok (.value { history := some [] })) AppState.initial).locations
        ≠ [{ name := "Vienna" }] := by
  refine ⟨?_, rfl, rfl, ?_⟩
  · simp [request, Response.ok, includes, Browser.emit]
  · simp [fetchUserDataIn, promiseAll, settle, applyFetched, Payload.read, AppState.initial]

/-- C14, amended: for every triple of successful responses none of which is the
JSON value `null`, and every order in which the three requests settle, each
cache afterwards is the corresponding field of its response (`locations`,
`preferences`, `history`) when the field holds a value, and is empty when the
field is absent: the empty sequence for locations and warnings, the empty map
for preferences.  No error is reported and the outcome is the same for every
order. -/
theorem fetchUserData_defaults_any_order (l : LocationsRes) (p : PreferencesRes)
    (w : HistoryRes) (s : AppState) (order : List (Fin 3)) (h : order.Perm [0, 1, 2]) :
    (fetchUserDataIn order (.ok (.value l)) (.ok (.value p)) (.ok (.value w)) s).locations
        = (match l.locations with | some ls => ls | none => []) ∧
      (fetchUserDataIn order (.ok (.value l)) (.ok (.value p)) (.ok (.value w)) s).preferences
        = (match p.preferences with | some ps => ps | none => []) ∧
      (fetchUserDataIn order (.ok (.value l)) (.ok (.value p)) (.ok (.value w)) s).warnings
        = (match w.history with | some ws => ws | none => []) ∧
      (fetchUserDataIn order (.ok (.value l)) (.ok (.value p)) (.ok (.value w)) s).error
        = none ∧
      fetchUserDataIn order (.ok (.value l)) (.ok (.value p)) (.ok (.value w)) s
        = fetchUserDataIn [0, 1, 2] (.ok (.value l)) (.ok (.value p)) (.ok (.value w)) s ∧
      fetchUserDataIn order (.ok (.value l)) (.ok (.value p)) (.ok (.value w)) s
        = fetchUserData (.ok (.value l)) (.ok (.value p)) (.ok (.value w)) s := by
  rw [fetchUserDataIn_eq order _ _ _ s h, fetchUserDataIn_eq [0, 1, 2] _ _ _ s (List.Perm.refl _)]
  refine ⟨?_, ?_, ?_, rfl, rfl, rfl⟩
  · cases hl : l.locations <;> simp [fetchUserData, applyFetched, Payload.read, hl]
  · cases hp : p.preferences <;> simp [fetchUserData, applyFetched, Payload.read, hp]
  · cases hw : w.history <;> simp [fetchUserData, applyFetched, Payload.read, hw]

/-- The history arrives first, then the locations, then the preferences, whose
field is absent. -/
theorem fetchUserData_defaults_any_order_witness :
    List.Perm [(2 : Fin 3), 0, 1] [0, 1, 2] ∧
      (fetchUserDataIn [2, 0, 1] (.ok (.value { locations := some [{ name := "Vienna" }] }))
        (.ok (.value { preferences := none })) (.ok (.value { history := some [] }))
        { AppState.initial with preferences := [("rain", false)] }).preferences = [] :=
  ⟨by decide,
    (fetchUserData_defaults_any_order { locations := some [{ name := "Vienna" }] }
      { preferences := none } { history := some [] }
      { AppState.initial with preferences := [("rain", false)] } [2, 0, 1] (by decide)).2.1⟩

/-! ## The warning type preferences -/

theorem lookup_withProp_self (p : Preferences) (key : String) (value : Bool) :
    (withProp p key value).lookup key = some value := by
  induction p with
  | nil => simp [withProp, List.lookup_cons]
  | cons e rest ih =>
    obtain ⟨k, v⟩ := e
    by_cases h : k = key
    · subst h
      simp [withProp, List.lookup_cons]
    · have hk : (key == k) = false := by simpa using fun h2 => h h2.symm
      simp [withProp, h, List.lookup_cons, hk, ih]

theorem lookup_withProp_ne (p : Preferences) (key other : String) (value : Bool)
    (h : other ≠ key) : (withProp p key value).lookup other = p.lookup other := by
  induction p with
  | nil =>
    have hk : (other == key) = false := by simpa using h
    simp [withProp, List.lookup_cons, hk]
  | cons e rest ih =>
    obtain ⟨k, v⟩ := e
    by_cases hkey : k = key
    · subst hkey
      have hk : (other == k) = false := by simpa using h
      simp [withProp, List.lookup_cons, hk]
    · by_cases ho : other = k
      · subst ho
        simp [withProp, hkey, List.lookup_cons]
      · have hk : (other == k) = false := by simpa using ho
        simp [withProp, hkey, List.lookup_cons, hk, ih]

/-- Toggling a type leaves the flag of every other key as it was. -/
theorem toggled_other_keys (p : Preferences) (typeId other : String) (h : other ≠ typeId) :
    (toggledPreferences p typeId).lookup other = p.lookup other :=
  lookup_withProp_ne p typeId other _ h

/-- Toggling a type whose key is present negates its flag. -/
theorem toggled_present_key (p : Preferences) (typeId : String) (v : Bool)
    (h : p.lookup typeId = some v) :
    checked (toggledPreferences p typeId) typeId = !checked p typeId := by
  simp [checked, toggledPreferences, lookup_withProp_self, notProp, h]

/-- C16, at the failing input: over the empty preference map the checkbox of
`rain` is checked, toggling it requests the map with `rain` set to `true`, and
in that map the checkbox is checked again: the effective flag is not negated. -/
theorem toggle_absent_key_stays_enabled :
    checked [] "rain" = true ∧
      toggledPreferences [] "rain" = [("rain", true)] ∧
      checked (toggledPreferences [] "rain") "rain" = true ∧
      checked (toggledPreferences [] "rain") "rain" ≠ !checked [] "rain" ∧
      (handleToggleWarning (handleUpdatePreferences (.ok ())) [] "rain"
        { AppState.initial with loading := false }).issued
        = [ApiCall.updatePreferences [("rain", true)]] := by
  decide

/-- C17, at the failing input: over the empty preference map each of the six
checkboxes is checked, and the notice that all warnings are disabled is
rendered; so it is over the map that disables `rain` only. -/
theorem notice_shown_for_empty_map :
    (∀ t ∈ warningTypes, checked [] t.id = true) ∧
      allDisabledNotice [] = true ∧
      (∀ t ∈ warningTypes, t.id ≠ "rain" → checked [("rain", false)] t.id = true) ∧
      allDisabledNotice [("rain", false)] = true := by
  decide

/-- The notice is rendered exactly when every flag stored in the map is
`false`; keys that are absent play no part. -/
theorem allDisabledNotice_iff (p : Preferences) :
    allDisabledNotice p = true ↔ ∀ e ∈ p, e.2 = false := by
  simp [allDisabledNotice]

/-! ## The calendar grid -/

/-- Consecutive cells of the grid hold consecutive days. -/
theorem gridCell_succ (selectedDate : Int) (index : Nat) :
    gridCell selectedDate (index + 1) = gridCell selectedDate index + 1 := by
  simp only [gridCell, newDate, makeDay]
  push_cast
  ring

/-- The cell at `index` holds the first of the month of the selected date moved
forward by `index` days and back by the weekday of the selected date. -/
theorem gridCell_eq (selectedDate : Int) (index : Nat) :
    gridCell selectedDate index
      = newDate (getFullYear selectedDate) (getMonth selectedDate) 1
        + (index : Int) - getDay selectedDate := by
  simp only [gridCell, newDate, makeDay]
  ring

/-- C18, at the failing input: the selected date is Tuesday 2 January 2024 (day
19724).  The 35 cells hold consecutive days, but the cell at index 0, under
`Sun`, holds Saturday 30 December 2023, and the selected Tuesday stands at
index 3, under `Wed`. -/
theorem grid_columns_misaligned :
    (getFullYear 19724, getMonth 19724, getDate 19724, getDay 19724) = (2024, 0, 2, 2) ∧
      (gridDates 19724).length = 35 ∧
      (∀ i : Fin 34, gridCell 19724 (i.val + 1) = gridCell 19724 i.val + 1) ∧
      gridCell 19724 0 = 19721 ∧
      (getFullYear 19721, getMonth 19721, getDate 19721) = (2023, 11, 30) ∧
      getDay (gridCell 19724 0) = 6 ∧
      getDay (gridCell 19724 0) ≠ ((0 : Nat) : Int) % 7 ∧
      gridCell 19724 3 = 19724 ∧
      weekHeader.get? (3 % 7) = some "Wed" := by
  refine ⟨by decide, by simp [gridDates], fun i => gridCell_succ 19724 i.val, by decide,
    by decide, by decide, by decide, by decide, by decide⟩

/-! ## Grouping the warnings by date -/

theorem lookup_pushAt_self (date : String) (w : WarningRecord) (acc : Groups) :
    (pushAt date w acc).lookup date = (acc.lookup date).map (fun g => g ++ [w]) := by
  induction acc with
  | nil => rfl
  | cons e rest ih =>
    obtain ⟨k, g⟩ := e
    by_cases h : k = date
    · subst h
      simp [pushAt, List.lookup_cons]
    · have hk : (date == k) = false := by simpa using fun h2 => h h2.symm
      simp [pushAt, h, List.lookup_cons, hk, ih]

theorem lookup_pushAt_ne (date d : String) (w : WarningRecord) (acc : Groups) (h : d ≠ date) :
    (pushAt date w acc).lookup d = acc.lookup d := by
  induction acc with
  | nil => rfl
  | cons e rest ih =>
    obtain ⟨k, g⟩ := e
    by_cases hk : k = date
    · subst hk
      have hd : (d == k) = false := by simpa using h
      simp [pushAt, List.lookup_cons, hd]
    · by_cases hdk : d = k
      · subst hdk
        simp [pushAt, hk, List.lookup_cons]
      · have hd : (d == k) = false := by simpa using hdk
        simp [pushAt, hk, List.lookup_cons, hd, ih]

theorem keys_pushAt (date : String) (w : WarningRecord) (acc : Groups) :
    (pushAt date w acc).map Prod.fst = acc.map Prod.fst := by
  induction acc with
  | nil => rfl
  | cons e rest ih =>
    obtain ⟨k, g⟩ := e
    by_cases h : k = date
    · subst h
      simp [pushAt]
    · simp [pushAt, h, ih]

theorem total_pushAt (date : String) (w : WarningRecord) (acc : Groups)
    (g : List WarningRecord) (h : acc.lookup date = some g) :
    ((pushAt date w acc).map (fun e => e.2.length)).sum
      = (acc.map (fun e => e.2.length)).sum + 1 := by
  induction acc with
  | nil => simp at h
  | cons e rest ih =>
    obtain ⟨k, g2⟩ := e
    by_cases hk : k = date
    · subst hk
      simp [pushAt]
      omega
    · have hd : (date == k) = false := by simpa using fun h2 => hk h2.symm
      simp only [List.lookup_cons, hd] at h
      simp [pushAt, hk, ih h]
      omega

theorem mem_pushAt (date : String) (w : WarningRecord) (acc : Groups)
    (e : String × List WarningRecord) (he : e ∈ pushAt date w acc) :
    e ∈ acc ∨ e.2 ≠ [] := by
  induction acc with
  | nil => simp [pushAt] at he
  | cons e2 rest ih =>
    obtain ⟨k, g⟩ := e2
    by_cases hk : k = date
    · subst hk
      simp only [pushAt, beq_self_eq_true, if_true, List.mem_cons] at he
      rcases he with he | he
      · right
        simp [he]
      · left
        simp [he]
    · simp only [pushAt, beq_iff_eq, hk, if_false, List.mem_cons] at he
      rcases he with he | he
      · left
        simp [he]
      · rcases ih he with h | h
        · left
          simp [h]
        · right
          exact h

theorem pushAt_append_new (date : String) (w : WarningRecord) (acc : Groups)
    (g : List WarningRecord) (h : acc.lookup date = none) :
    pushAt date w (acc ++ [(date, g)]) = acc ++ [(date, g ++ [w])] := by
  induction acc with
  | nil => simp [pushAt]
  | cons e rest ih =>
    obtain ⟨k, g2⟩ := e
    by_cases hk : k = date
    · subst hk
      simp [List.lookup_cons] at h
    · have hd : (date == k) = false := by simpa using fun h2 => hk h2.symm
      simp only [List.lookup_cons, hd] at h
      simp [pushAt, hk, ih h]

theorem groupStep_new (dateKey : Int → String) (acc : Groups) (w : WarningRecord)
    (h : acc.lookup (dateKey w.start_time) = none) :
    groupStep dateKey acc w = acc ++ [(dateKey w.start_time, [w])] := by
  simp only [groupStep, h]
  simpa using pushAt_append_new (dateKey w.start_time) w acc [] h

theorem groupStep_old (dateKey : Int → String) (acc : Groups) (w : WarningRecord)
    (g : List WarningRecord) (h : acc.lookup (dateKey w.start_time) = some g) :
    groupStep dateKey acc w = pushAt (dateKey w.start_time) w acc := by
  simp only [groupStep, h]

theorem onDate_append (dateKey : Int → String) (ws : List WarningRecord) (w : WarningRecord)
    (d : String) :
    onDate dateKey (ws ++ [w]) d
      = onDate dateKey ws d ++ (if dateKey w.start_time = d then [w] else []) := by
  by_cases h : dateKey w.start_time = d <;> simp [onDate, List.filter_append, h]

theorem grouped_step (dateKey : Int → String) (ws : List WarningRecord) (acc : Groups)
    (w : WarningRecord) (h : Grouped dateKey ws acc) :
    Grouped dateKey (ws ++ [w]) (groupStep dateKey acc w) := by
  obtain ⟨hL, hN, hK, hT⟩ := h
  cases hlook : acc.lookup (dateKey w.start_time) with
  | none =>
    have hF : onDate dateKey ws (dateKey w.start_time) = [] := by
      have := hL (dateKey w.start_time)
      rw [hlook] at this
      by_contra hne
      simp [hne] at this
    rw [groupStep_new dateKey acc w hlook]
    refine ⟨?_, ?_, ?_, ?_⟩
    · intro d
      rw [List.lookup_append, onDate_append]
      by_cases hd : dateKey w.start_time = d
      · subst hd
        simp [hlook, hF]
      · have hb : (d == dateKey w.start_time) = false := by
          simpa using fun h2 => hd h2.symm
        simp [hd, List.lookup_cons, hb, hL d]
    · intro e he
      rcases List.mem_append.1 he with he | he
      · exact hN e he
      · simp at he
        simp [he]
    · rw [List.map_append, List.nodup_append]
      refine ⟨hK, by simp, ?_⟩
      intro k hk1 hk2
      simp at hk2
      subst hk2
      obtain ⟨e, he, hek⟩ := List.mem_map.1 hk1
      have := (List.lookup_eq_none_iff.1 hlook) e he
      simp [hek] at this
    · simp [hT]
  | some g =>
    have hF : onDate dateKey ws (dateKey w.start_time) = g ∧
        onDate dateKey ws (dateKey w.start_time) ≠ [] := by
      have := hL (dateKey w.start_time)
      rw [hlook] at this
      by_cases hne : onDate dateKey ws (dateKey w.start_time) = []
      · simp [hne] at this
      · simp [hne] at this
        exact ⟨this.symm, hne⟩
    rw [groupStep_old dateKey acc w g hlook]
    refine ⟨?_, ?_, ?_, ?_⟩
    · intro d
      rw [onDate_append]
      by_cases hd : dateKey w.start_time = d
      · subst hd
        rw [lookup_pushAt_self, hlook]
        simp [hF.1]
      · rw [lookup_pushAt_ne _ _ _ _ (fun h2 => hd h2.symm)]
        simp [hd, hL d]
    · intro e he
      rcases mem_pushAt _ _ _ _ he with h | h
      · exact hN e h
      · exact h
    · rw [keys_pushAt]
      exact hK
    · rw [total_pushAt _ _ _ g hlook, hT]
      simp

theorem grouped_warningsByDate (dateKey : Int → String) (warnings : List WarningRecord) :
    Grouped dateKey warnings (warningsByDate dateKey warnings) := by
  induction warnings using List.reverseRecOn with
  | nil => exact ⟨by intro d; simp [warningsByDate, onDate], by simp [warningsByDate],
      by simp [warningsByDate], by simp [warningsByDate]⟩
  | append_singleton ws w ih =>
    have : warningsByDate dateKey (ws ++ [w])
        = groupStep dateKey (warningsByDate dateKey ws) w := by
      simp [warningsByDate, List.foldl_append]
    rw [this]
    exact grouped_step dateKey ws _ w ih

theorem lookup_of_mem (acc : Groups) (d : String) (g : List WarningRecord)
    (hK : (acc.map Prod.fst).Nodup) (h : (d, g) ∈ acc) : acc.lookup d = some g := by
  induction acc with
  | nil => simp at h
  | cons e rest ih =>
    obtain ⟨k, g2⟩ := e
    simp only [List.map_cons, List.nodup_cons] at hK
    rcases List.mem_cons.1 h with hq | hr
    · simp only [Prod.mk.injEq] at hq
      obtain ⟨rfl, rfl⟩ := hq
      simp
    · have hne : d ≠ k := by
        intro hdk
        rw [← hdk] at hK
        exact hK.1 (List.mem_map.2 ⟨(d, g), hr, rfl⟩)
      have hb : (d == k) = false := by simpa using hne
      simp only [List.lookup_cons, hb]
      exact ih hK.2 hr

/-- C15: for every list of warning records, the grouping computed in
`CalendarPanel` is a partition by start date: the group under the date key `d`
is exactly the sub-sequence of the records whose start falls on `d`, in their
order in the list (and there is no group under `d` when no record starts on
`d`); no group is empty; no date key occurs twice; and the sizes of the groups
sum to the length of the list. -/
theorem warningsByDate_partition (dateKey : Int → String) (warnings : List WarningRecord) :
    (∀ d, (warningsByDate dateKey warnings).lookup d
        = if warnings.filter (fun w => dateKey w.start_time == d) = [] then none
          else some (warnings.filter (fun w => dateKey w.start_time == d))) ∧
      (∀ d g, (d, g) ∈ warningsByDate dateKey warnings →
        g = warnings.filter (fun w => dateKey w.start_time == d)) ∧
      (∀ e ∈ warningsByDate dateKey warnings, e.2 ≠ []) ∧
      ((warningsByDate dateKey warnings).map Prod.fst).Nodup ∧
      ((warningsByDate dateKey warnings).map (fun e => e.2.length)).sum = warnings.length := by
  obtain ⟨hL, hN, hK, hT⟩ := grouped_warningsByDate dateKey warnings
  refine ⟨hL, ?_, hN, hK, hT⟩
  intro d g hmem
  have hl := hL d
  rw [lookup_of_mem _ d g hK hmem] at hl
  unfold onDate at hl
  by_cases hne : warnings.filter (fun w => dateKey w.start_time == d) = []
  · simp [hne] at hl
  · simp only [hne, if_false, Option.some.injEq] at hl
    exact hl

/-- Three records, the first and the third starting on the first day. -/
theorem warningsByDate_partition_witness :
    (("1970-01-01",
        [{ id := "a", type := "rain", severity := "low", description := "", start_time := 0,
             end_time := 1, area := "Wien" },
         { id := "c", type := "wind", severity := "high", description := "", start_time := 5,
             end_time := 6, area := "Wien" }]) : String × List WarningRecord)
      ∈ warningsByDate (fun t => if t < 86400000 then "1970-01-01" else "1970-01-02")
        [{ id := "a", type := "rain", severity := "low", description := "", start_time := 0,
             end_time := 1, area := "Wien" },
         { id := "b", type := "snow", severity := "low", description := "",
           start_time := 90000000, end_time := 90000001, area := "Graz" },
         { id := "c", type := "wind", severity := "high", description := "", start_time := 5,
             end_time := 6, area := "Wien" }] ∧
      ([{ id := "a", type := "rain", severity := "low", description := "", start_time := 0,
             end_time := 1, area := "Wien" },
         { id := "c", type := "wind", severity := "high", description := "", start_time := 5,
             end_time := 6, area := "Wien" }] : List WarningRecord)
      = List.filter
          (fun w => (fun t : Int => if t < 86400000 then "1970-01-01" else "1970-01-02")
            w.start_time == "1970-01-01")
          [{ id := "a", type := "rain", severity := "low", description := "", start_time := 0,
             end_time := 1, area := "Wien" },
         { id := "b", type := "snow", severity := "low", description := "",
           start_time := 90000000, end_time := 90000001, area := "Graz" },
         { id := "c", type := "wind", severity := "high", description := "", start_time := 5,
             end_time := 6, area := "Wien" }] :=
  ⟨by decide,
    (warningsByDate_partition (fun t => if t < 86400000 then "1970-01-01" else "1970-01-02")
      [{ id := "a", type := "rain", severity := "low", description := "", start_time := 0,
             end_time := 1, area := "Wien" },
       { id := "b", type := "snow", severity := "low", description := "",
         start_time := 90000000, end_time := 90000001, area := "Graz" },
       { id := "c", type := "wind", severity := "high", description := "", start_time := 5,
             end_time := 6, area := "Wien" }]).2.1 _ _ (by decide)⟩

/-- The weekday of the cell at `index` is the weekday of the first of the month
moved by `index` less the weekday of the selected date. -/
theorem gridCell_getDay (selectedDate : Int) (index : Nat) :
    getDay (gridCell selectedDate index)
      = (getDay (newDate (getFullYear selectedDate) (getMonth selectedDate) 1)
          + (index : Int) - getDay selectedDate) % 7 := by
  rw [gridCell_eq]
  simp only [getDay]
  omega

end Infocal
